import Mathlib

/-
Shallow embedding of the repository: the CreditAnalyzer contract
(contracts/CreditAnalyzer.sol) and the client transaction pipeline
(src/utils/blockchain.ts).  FHE ciphertexts are modelled by their plaintext
values: euint8 as Nat reduced mod 256, euint32 as Nat reduced mod 2^32,
ebool as Bool; every FHE operation is the corresponding plaintext operation
with the wraparound of its bit width.  Addresses and timestamps are Nat.
-/

def M32 : Nat := 4294967296

def fheAdd8 (a b : Nat) : Nat := (a + b) % 256

def fheSub8 (a b : Nat) : Nat := (a % 256 + (256 - b % 256)) % 256

def fheMul32 (a b : Nat) : Nat := (a * b) % M32

def fheSelect (c : Bool) (a b : Nat) : Nat := if c then a else b

def EXCELLENT_SCORE : Nat := 5

def GOOD_SCORE : Nat := 4

def FAIR_SCORE : Nat := 3

def POOR_SCORE : Nat := 2

def BAD_SCORE : Nat := 1

structure CreditData where
  encryptedIncome : Nat
  encryptedDebt : Nat
  encryptedAge : Nat
  encryptedCreditHistory : Nat
  encryptedPaymentHistory : Nat
  hasSubmitted : Bool
  submissionTime : Nat
deriving Repr, DecidableEq

structure CreditEvaluation where
  encryptedScore : Nat
  isEvaluated : Bool
  evaluationTime : Nat
  isApproved : Bool
deriving Repr, DecidableEq

def emptyCreditData : CreditData :=
  ⟨0, 0, 0, 0, 0, false, 0⟩

def emptyCreditEvaluation : CreditEvaluation :=
  ⟨0, false, 0, false⟩

/- Scoring helpers, one per internal function of the contract. -/

def _calculateBaseScore : Nat := FAIR_SCORE

def _applyAgeBonus (score age : Nat) : Nat :=
  let score := fheSelect (decide (25 < age)) (fheAdd8 score 1) score
  fheSelect (decide (40 < age)) (fheAdd8 score 1) score

def _applyCreditHistoryBonus (score creditHistory : Nat) : Nat :=
  let score := fheSelect (decide (5 < creditHistory)) (fheAdd8 score 1) score
  fheSelect (decide (10 < creditHistory)) (fheAdd8 score 1) score

def _applyPaymentHistoryBonus (score paymentHistory : Nat) : Nat :=
  let score := fheSelect (decide (7 < paymentHistory)) (fheAdd8 score 1) score
  fheSelect (decide (paymentHistory = 10)) (fheAdd8 score 1) score

def _applyDebtPenalty (score debt income : Nat) : Nat :=
  let score := fheSelect (decide (20000 < debt)) (fheSub8 score 1) score
  let score := fheSelect (decide (50000 < debt)) (fheSub8 score 1) score
  let score := fheSelect (decide (income < debt)) (fheSub8 score 2) score
  let doubleIncome := fheMul32 income 2
  fheSelect (decide (doubleIncome < debt)) (fheSub8 score 1) score

def _applyIncomeBonus (score income : Nat) : Nat :=
  let score := fheSelect (decide (5000 < income)) (fheAdd8 score 1) score
  fheSelect (decide (10000 < income)) (fheAdd8 score 1) score

def _enforceScoreLimits (score : Nat) : Nat :=
  let score := fheSelect (decide (score < 1)) 1 score
  fheSelect (decide (5 < score)) 5 score

/- The accumulator value just before the final clamp, in the order the
contract applies the stages (base, age, credit history, payment history,
debt penalty, income bonus). -/
def rawScore (d : CreditData) : Nat :=
  let score := _calculateBaseScore
  let score := _applyAgeBonus score d.encryptedAge
  let score := _applyCreditHistoryBonus score d.encryptedCreditHistory
  let score := _applyPaymentHistoryBonus score d.encryptedPaymentHistory
  let score := _applyDebtPenalty score d.encryptedDebt d.encryptedIncome
  _applyIncomeBonus score d.encryptedIncome

def evaluateScore (d : CreditData) : Nat :=
  _enforceScoreLimits (rawScore d)

/- Contract state and entry points. -/

structure ContractState where
  owner : Nat
  totalEvaluations : Nat
  creditSubmissions : Nat → CreditData
  creditEvaluations : Nat → CreditEvaluation

def initState (deployer : Nat) : ContractState :=
  ⟨deployer, 0, fun _ => emptyCreditData, fun _ => emptyCreditEvaluation⟩

inductive ContractError where
  | notAuthorized
  | noCreditDataSubmitted
  | dataAlreadySubmitted
  | notAuthorizedToEvaluate
  | alreadyEvaluated
  | creditNotEvaluatedYet
  | notEvaluated
deriving Repr, DecidableEq

def isOk {ε α : Type} : Except ε α → Bool
  | .ok _ => true
  | .error _ => false

def submitCreditData (s : ContractState)
    (sender time income debt age creditHistory paymentHistory : Nat) :
    Except ContractError ContractState :=
  if (s.creditSubmissions sender).hasSubmitted = true then
    .error .dataAlreadySubmitted
  else
    .ok { s with creditSubmissions := fun a =>
      if a = sender then
        ⟨income % M32, debt % M32, age % 256, creditHistory % 256,
         paymentHistory % 256, true, time⟩
      else s.creditSubmissions a }

def evaluateCreditScore (s : ContractState) (sender time user : Nat) :
    Except ContractError ContractState :=
  if (s.creditSubmissions sender).hasSubmitted = false then
    .error .noCreditDataSubmitted
  else if sender ≠ user ∧ sender ≠ s.owner then
    .error .notAuthorizedToEvaluate
  else if (s.creditEvaluations user).isEvaluated = true then
    .error .alreadyEvaluated
  else
    let data := s.creditSubmissions user
    let score := evaluateScore data
    let approved := decide (FAIR_SCORE ≤ score)
    .ok { s with
          totalEvaluations := s.totalEvaluations + 1,
          creditEvaluations := fun a =>
            if a = user then ⟨score, true, time, approved⟩
            else s.creditEvaluations a }

def requestLoanApproval (s : ContractState) (sender time : Nat) :
    Except ContractError ContractState :=
  if (s.creditSubmissions sender).hasSubmitted = false then
    .error .noCreditDataSubmitted
  else if (s.creditEvaluations sender).isEvaluated = false then
    .error .creditNotEvaluatedYet
  else
    .ok s

def hasSubmittedCreditData (s : ContractState) (user : Nat) : Bool :=
  (s.creditSubmissions user).hasSubmitted

def isCreditEvaluated (s : ContractState) (user : Nat) : Bool :=
  (s.creditEvaluations user).isEvaluated

def getEvaluationStats (s : ContractState) : Nat :=
  s.totalEvaluations

def getEncryptedCreditScore (s : ContractState) (sender user : Nat) :
    Except ContractError Nat :=
  if sender ≠ user ∧ sender ≠ s.owner then
    .error .notAuthorized
  else if (s.creditEvaluations user).isEvaluated = false then
    .error .notEvaluated
  else
    .ok (s.creditEvaluations user).encryptedScore

def getEncryptedLoanApproval (s : ContractState) (sender user : Nat) :
    Except ContractError Bool :=
  if sender ≠ user ∧ sender ≠ s.owner then
    .error .notAuthorized
  else if (s.creditEvaluations user).isEvaluated = false then
    .error .notEvaluated
  else
    .ok (s.creditEvaluations user).isApproved

/- Transition system: a failed call reverts, leaving the state unchanged. -/

inductive Op where
  | submit (sender time income debt age creditHistory paymentHistory : Nat)
  | evaluate (sender time user : Nat)
  | requestApproval (sender time : Nat)

def applyCall (s : ContractState) (r : Except ContractError ContractState) :
    ContractState :=
  match r with
  | .ok s2 => s2
  | .error _ => s

def step (s : ContractState) : Op → ContractState
  | .submit sender time income debt age ch ph =>
      applyCall s (submitCreditData s sender time income debt age ch ph)
  | .evaluate sender time user =>
      applyCall s (evaluateCreditScore s sender time user)
  | .requestApproval sender time =>
      applyCall s (requestLoanApproval s sender time)

inductive Reachable (deployer : Nat) : ContractState → Prop where
  | init : Reachable deployer (initState deployer)
  | next (s : ContractState) (op : Op) :
      Reachable deployer s → Reachable deployer (step s op)

def evaluatedSet (s : ContractState) : Set Nat :=
  {u | (s.creditEvaluations u).isEvaluated = true}

/- Concrete states used by witnesses and counterexamples. -/

def sInit : ContractState := initState 0

def sSub1 : ContractState := step sInit (Op.submit 1 10 8000 5000 35 8 9)

def sEval1 : ContractState := step sSub1 (Op.evaluate 1 11 1)

def sAdmSub : ContractState := step sInit (Op.submit 0 1 8000 5000 35 8 9)

/- The unclamped rubric sum of spec section 4.1, over the integers.
Modelled from the spec for comparison with the code accumulator. -/
def specUnclampedScore (d : CreditData) : Int :=
  3 + (if 25 < d.encryptedAge then 1 else 0)
    + (if 40 < d.encryptedAge then 1 else 0)
    + (if 5 < d.encryptedCreditHistory then 1 else 0)
    + (if 10 < d.encryptedCreditHistory then 1 else 0)
    + (if 7 < d.encryptedPaymentHistory then 1 else 0)
    + (if d.encryptedPaymentHistory = 10 then 1 else 0)
    - (if 20000 < d.encryptedDebt then 1 else 0)
    - (if 50000 < d.encryptedDebt then 1 else 0)
    - (if d.encryptedIncome < d.encryptedDebt then 2 else 0)
    - (if 2 * d.encryptedIncome < d.encryptedDebt then 1 else 0)
    + (if 5000 < d.encryptedIncome then 1 else 0)
    + (if 10000 < d.encryptedIncome then 1 else 0)

def scenarioBRecord : CreditData := ⟨2000, 30000, 20, 1, 3, true, 0⟩

theorem enforceScoreLimits_range (n : Nat) :
    1 ≤ _enforceScoreLimits n ∧ _enforceScoreLimits n ≤ 5 := by
  simp only [_enforceScoreLimits, fheSelect, decide_eq_true_eq]
  split <;> split <;> omega

/-- Claim C1: on Scenario B (income 2000, debt 30000, age 20, credit history 1,
payment history 3) the spec rubric sum is the integer -1, but the euint8
accumulator of the contract wraps to 255 before the clamp, so the code yields
clamped score 5 and an approval flag of true, contradicting the claimed
score 1 and approved false. -/
theorem creditAnalyzer_scenarioB_wraparound :
    specUnclampedScore scenarioBRecord = -1 ∧
    rawScore scenarioBRecord = 255 ∧
    evaluateScore scenarioBRecord = 5 ∧
    decide (FAIR_SCORE ≤ evaluateScore scenarioBRecord) = true := by decide

/-- Claim C2: whenever evaluateCreditScore succeeds, the stored encrypted score
lies in the interval from 1 to 5 and the stored approval flag holds exactly
when the clamped score is at least FAIR_SCORE, which is 3. -/
theorem evaluateCreditScore_clamped_range (s : ContractState)
    (sender time user : Nat) (s2 : ContractState)
    (h : evaluateCreditScore s sender time user = .ok s2) :
    1 ≤ (s2.creditEvaluations user).encryptedScore ∧
    (s2.creditEvaluations user).encryptedScore ≤ 5 ∧
    ((s2.creditEvaluations user).isApproved = true ↔
      FAIR_SCORE ≤ (s2.creditEvaluations user).encryptedScore) := by
  unfold evaluateCreditScore at h
  split at h
  · exact Except.noConfusion h
  · split at h
    · exact Except.noConfusion h
    · split at h
      · exact Except.noConfusion h
      · injection h with h2
        subst h2
        simp only [if_pos rfl]
        refine ⟨(enforceScoreLimits_range _).1, (enforceScoreLimits_range _).2, ?_⟩
        exact decide_eq_true_iff

/-- Witness for claim C2, instantiated on a concrete successful evaluation. -/
theorem evaluateCreditScore_clamped_range_witness :
    1 ≤ (sEval1.creditEvaluations 1).encryptedScore ∧
    (sEval1.creditEvaluations 1).encryptedScore ≤ 5 ∧
    ((sEval1.creditEvaluations 1).isApproved = true ↔
      FAIR_SCORE ≤ (sEval1.creditEvaluations 1).encryptedScore) :=
  evaluateCreditScore_clamped_range sSub1 1 11 1 sEval1 rfl

/-- Claim C3 counterexample: the administrator, having submitted data of their
own, successfully evaluates identity 7 even though identity 7 never submitted
a credit record, so evaluate does not fail with NotSubmitted when the subject
has not submitted. -/
theorem evaluateCreditScore_admin_bypasses_subject_check :
    sAdmSub.owner = 0 ∧
    (sAdmSub.creditSubmissions 7).hasSubmitted = false ∧
    isOk (evaluateCreditScore sAdmSub 0 2 7) = true := by decide

/-- Claim C3 amended: the submission guard of evaluateCreditScore tests the
caller, not the subject: the call fails with NoCreditDataSubmitted when the
caller has not submitted, then with NotAuthorizedToEvaluate when the caller is
neither the subject nor the owner, then with AlreadyEvaluated when the subject
is already evaluated, and otherwise succeeds and marks the subject
evaluated. -/
theorem evaluateCreditScore_guard_cases (s : ContractState)
    (sender time user : Nat) :
    ((s.creditSubmissions sender).hasSubmitted = false →
      evaluateCreditScore s sender time user = .error .noCreditDataSubmitted) ∧
    ((s.creditSubmissions sender).hasSubmitted = true →
     sender ≠ user → sender ≠ s.owner →
      evaluateCreditScore s sender time user = .error .notAuthorizedToEvaluate) ∧
    ((s.creditSubmissions sender).hasSubmitted = true →
     (sender = user ∨ sender = s.owner) →
     (s.creditEvaluations user).isEvaluated = true →
      evaluateCreditScore s sender time user = .error .alreadyEvaluated) ∧
    ((s.creditSubmissions sender).hasSubmitted = true →
     (sender = user ∨ sender = s.owner) →
     (s.creditEvaluations user).isEvaluated = false →
      isOk (evaluateCreditScore s sender time user) = true ∧
      ((step s (Op.evaluate sender time user)).creditEvaluations user).isEvaluated
        = true) := by
  refine ⟨?_, ?_, ?_, ?_⟩
  · intro h1
    simp [evaluateCreditScore, h1]
  · intro h1 h2 h3
    simp [evaluateCreditScore, h1, h2, h3]
  · intro h1 hauth hev
    have hna : ¬(sender ≠ user ∧ sender ≠ s.owner) := by
      rcases hauth with h | h <;> simp [h]
    simp [evaluateCreditScore, h1, hna, hev]
  · intro h1 hauth hev
    have hna : ¬(sender ≠ user ∧ sender ≠ s.owner) := by
      rcases hauth with h | h <;> simp [h]
    constructor
    · simp [evaluateCreditScore, h1, hna, hev, isOk]
    · simp [step, applyCall, evaluateCreditScore, h1, hna, hev]

/-- Witness for the amended claim C3, exercising each of the four guard cases
on concrete states. -/
theorem evaluateCreditScore_guard_cases_witness :
    evaluateCreditScore sInit 2 5 2 = .error .noCreditDataSubmitted ∧
    evaluateCreditScore sSub1 1 5 2 = .error .notAuthorizedToEvaluate ∧
    evaluateCreditScore sEval1 1 12 1 = .error .alreadyEvaluated ∧
    (isOk (evaluateCreditScore sSub1 1 11 1) = true ∧
      ((step sSub1 (Op.evaluate 1 11 1)).creditEvaluations 1).isEvaluated = true) :=
  ⟨(evaluateCreditScore_guard_cases sInit 2 5 2).1 (by decide),
   (evaluateCreditScore_guard_cases sSub1 1 5 2).2.1 (by decide) (by decide) (by decide),
   (evaluateCreditScore_guard_cases sEval1 1 12 1).2.2.1 (by decide)
     (Or.inl rfl) (by decide),
   (evaluateCreditScore_guard_cases sSub1 1 11 1).2.2.2 (by decide)
     (Or.inl rfl) (by decide)⟩

/-- Claim C4: once an identity has submitted, any further submit by that
identity fails with DataAlreadySubmitted whatever the arguments are, and no
operation of the contract ever changes that stored credit record. -/
theorem submitCreditData_one_shot (s : ContractState)
    (u time income debt age ch ph : Nat) (op : Op)
    (h : (s.creditSubmissions u).hasSubmitted = true) :
    submitCreditData s u time income debt age ch ph =
      .error .dataAlreadySubmitted ∧
    (step s op).creditSubmissions u = s.creditSubmissions u := by
  constructor
  · simp [submitCreditData, h]
  · cases op with
    | submit sender t i d a c p =>
      by_cases hs : (s.creditSubmissions sender).hasSubmitted = true
      · simp [step, applyCall, submitCreditData, hs]
      · by_cases hu : u = sender
        · subst hu; exact absurd h hs
        · simp [step, applyCall, submitCreditData, hs, hu]
    | evaluate sender t user =>
      by_cases c1 : (s.creditSubmissions sender).hasSubmitted = false
      · simp [step, applyCall, evaluateCreditScore, c1]
      · by_cases c2 : sender ≠ user ∧ sender ≠ s.owner
        · simp [step, applyCall, evaluateCreditScore, c1, c2]
        · by_cases c3 : (s.creditEvaluations user).isEvaluated = true
          · simp [step, applyCall, evaluateCreditScore, c1, c2, c3]
          · simp [step, applyCall, evaluateCreditScore, c1, c2, c3]
    | requestApproval sender t =>
      by_cases c1 : (s.creditSubmissions sender).hasSubmitted = false
      · simp [step, applyCall, requestLoanApproval, c1]
      · by_cases c2 : (s.creditEvaluations sender).isEvaluated = false
        · simp [step, applyCall, requestLoanApproval, c1, c2]
        · simp [step, applyCall, requestLoanApproval, c1, c2]

/-- Witness for claim C4 on a concrete state where identity 1 has already
submitted. -/
theorem submitCreditData_one_shot_witness :
    submitCreditData sSub1 1 7 9 9 9 9 9 = .error .dataAlreadySubmitted ∧
    (step sSub1 (Op.submit 1 99 1 2 3 4 5)).creditSubmissions 1 =
      sSub1.creditSubmissions 1 :=
  submitCreditData_one_shot sSub1 1 7 9 9 9 9 9
    (Op.submit 1 99 1 2 3 4 5) (by decide)

/-- Claim C5 counterexample: a caller that never submitted is below the
Evaluated state, yet requestLoanApproval rejects it with
NoCreditDataSubmitted rather than the claimed NotEvaluated error. -/
theorem requestLoanApproval_unsubmitted_error_mismatch :
    requestLoanApproval sInit 1 5 = .error .noCreditDataSubmitted ∧
    requestLoanApproval sInit 1 5 ≠ .error .creditNotEvaluatedYet := by
  refine ⟨rfl, ?_⟩
  intro h
  have h2 : (Except.error ContractError.noCreditDataSubmitted :
      Except ContractError ContractState) = .error .creditNotEvaluatedYet := h
  injection h2 with h3
  exact absurd h3 (by decide)

/-- Claim C5 amended: requestLoanApproval fails with NoCreditDataSubmitted for
an unsubmitted caller, fails with CreditNotEvaluatedYet for a submitted but
unevaluated caller, and on success returns the state unchanged, mutating
nothing. -/
theorem requestLoanApproval_guard_cases (s : ContractState)
    (sender time : Nat) :
    ((s.creditSubmissions sender).hasSubmitted = false →
      requestLoanApproval s sender time = .error .noCreditDataSubmitted) ∧
    ((s.creditSubmissions sender).hasSubmitted = true →
     (s.creditEvaluations sender).isEvaluated = false →
      requestLoanApproval s sender time = .error .creditNotEvaluatedYet) ∧
    ((s.creditSubmissions sender).hasSubmitted = true →
     (s.creditEvaluations sender).isEvaluated = true →
      requestLoanApproval s sender time = .ok s ∧
      step s (Op.requestApproval sender time) = s) := by
  refine ⟨?_, ?_, ?_⟩
  · intro h1
    simp [requestLoanApproval, h1]
  · intro h1 h2
    simp [requestLoanApproval, h1, h2]
  · intro h1 h2
    constructor
    · simp [requestLoanApproval, h1, h2]
    · simp [step, applyCall, requestLoanApproval, h1, h2]

/-- Witness for the amended claim C5, exercising the three guard cases on
concrete states. -/
theorem requestLoanApproval_guard_cases_witness :
    requestLoanApproval sInit 1 5 = .error .noCreditDataSubmitted ∧
    requestLoanApproval sSub1 1 5 = .error .creditNotEvaluatedYet ∧
    (requestLoanApproval sEval1 1 12 = .ok sEval1 ∧
      step sEval1 (Op.requestApproval 1 12) = sEval1) :=
  ⟨(requestLoanApproval_guard_cases sInit 1 5).1 (by decide),
   (requestLoanApproval_guard_cases sSub1 1 5).2.1 (by decide) (by decide),
   (requestLoanApproval_guard_cases sEval1 1 12).2.2 (by decide) (by decide)⟩

/-- Claim C6: a caller that is neither the subject identity nor the owner is
rejected with NotAuthorized by both encrypted result getters, so only the
subject or the administrator can obtain the ciphertext handles. -/
theorem readHandles_not_authorized (s : ContractState) (sender user : Nat)
    (h1 : sender ≠ user) (h2 : sender ≠ s.owner) :
    getEncryptedCreditScore s sender user = .error .notAuthorized ∧
    getEncryptedLoanApproval s sender user = .error .notAuthorized := by
  constructor
  · simp [getEncryptedCreditScore, h1, h2]
  · simp [getEncryptedLoanApproval, h1, h2]

/-- Witness for claim C6 on a concrete state with an unrelated caller. -/
theorem readHandles_not_authorized_witness :
    getEncryptedCreditScore sEval1 2 1 = .error .notAuthorized ∧
    getEncryptedLoanApproval sEval1 2 1 = .error .notAuthorized :=
  readHandles_not_authorized sEval1 2 1 (by decide) (by decide)

/- The state produced by a successful evaluateCreditScore call. -/
def evalSuccState (s : ContractState) (time user : Nat) : ContractState :=
  { s with
    totalEvaluations := s.totalEvaluations + 1,
    creditEvaluations := fun a =>
      if a = user then
        ⟨evaluateScore (s.creditSubmissions user), true, time,
          decide (FAIR_SCORE ≤ evaluateScore (s.creditSubmissions user))⟩
      else s.creditEvaluations a }

theorem evaluatedSet_initState (d : Nat) : evaluatedSet (initState d) = ∅ := by
  ext u
  simp [evaluatedSet, initState, emptyCreditEvaluation]

theorem reachable_evaluation_count (d : Nat) (s : ContractState)
    (h : Reachable d s) :
    (evaluatedSet s).Finite ∧ (evaluatedSet s).ncard = s.totalEvaluations := by
  induction h with
  | init =>
    refine ⟨?_, ?_⟩
    · rw [evaluatedSet_initState]; exact Set.finite_empty
    · rw [evaluatedSet_initState]; simp [initState]
  | next s op hr ih =>
    cases op with
    | submit sender t i dd a ch ph =>
      have hsame : (step s (Op.submit sender t i dd a ch ph)).creditEvaluations
            = s.creditEvaluations ∧
          (step s (Op.submit sender t i dd a ch ph)).totalEvaluations
            = s.totalEvaluations := by
        by_cases c1 : (s.creditSubmissions sender).hasSubmitted = true
        · simp [step, applyCall, submitCreditData, c1]
        · simp [step, applyCall, submitCreditData, c1]
      have hset : evaluatedSet (step s (Op.submit sender t i dd a ch ph))
          = evaluatedSet s := by
        unfold evaluatedSet; rw [hsame.1]
      rw [hset, hsame.2]; exact ih
    | requestApproval sender t =>
      have hsame : step s (Op.requestApproval sender t) = s := by
        by_cases c1 : (s.creditSubmissions sender).hasSubmitted = false
        · simp [step, applyCall, requestLoanApproval, c1]
        · by_cases c2 : (s.creditEvaluations sender).isEvaluated = false
          · simp [step, applyCall, requestLoanApproval, c1, c2]
          · simp [step, applyCall, requestLoanApproval, c1, c2]
      rw [hsame]; exact ih
    | evaluate sender t user =>
      by_cases c1 : (s.creditSubmissions sender).hasSubmitted = false
      · have hsame : step s (Op.evaluate sender t user) = s := by
          simp [step, applyCall, evaluateCreditScore, c1]
        rw [hsame]; exact ih
      · by_cases c2 : sender ≠ user ∧ sender ≠ s.owner
        · have hsame : step s (Op.evaluate sender t user) = s := by
            simp [step, applyCall, evaluateCreditScore, c1, c2]
          rw [hsame]; exact ih
        · by_cases c3 : (s.creditEvaluations user).isEvaluated = true
          · have hsame : step s (Op.evaluate sender t user) = s := by
              simp [step, applyCall, evaluateCreditScore, c1, c2, c3]
            rw [hsame]; exact ih
          · have hstep : step s (Op.evaluate sender t user)
                = evalSuccState s t user := by
              simp [step, applyCall, evaluateCreditScore, evalSuccState, c1, c2, c3]
            have hset : evaluatedSet (step s (Op.evaluate sender t user))
                = insert user (evaluatedSet s) := by
              rw [hstep]
              ext x
              by_cases hx : x = user <;> simp [evaluatedSet, evalSuccState, hx]
            have hnm : user ∉ evaluatedSet s := by
              simp only [evaluatedSet, Set.mem_setOf_eq]
              exact c3
            refine ⟨?_, ?_⟩
            · rw [hset]; exact ih.1.insert user
            · rw [hset, Set.ncard_insert_of_not_mem hnm ih.1, ih.2, hstep]
              rfl

theorem step_totalEvaluations (s : ContractState) (op : Op) :
    (step s op).totalEvaluations = s.totalEvaluations ∨
    (step s op).totalEvaluations = s.totalEvaluations + 1 := by
  cases op with
  | submit sender t i dd a ch ph =>
    left
    by_cases c1 : (s.creditSubmissions sender).hasSubmitted = true
    · simp [step, applyCall, submitCreditData, c1]
    · simp [step, applyCall, submitCreditData, c1]
  | requestApproval sender t =>
    left
    by_cases c1 : (s.creditSubmissions sender).hasSubmitted = false
    · simp [step, applyCall, requestLoanApproval, c1]
    · by_cases c2 : (s.creditEvaluations sender).isEvaluated = false
      · simp [step, applyCall, requestLoanApproval, c1, c2]
      · simp [step, applyCall, requestLoanApproval, c1, c2]
  | evaluate sender t user =>
    by_cases c1 : (s.creditSubmissions sender).hasSubmitted = false
    · left; simp [step, applyCall, evaluateCreditScore, c1]
    · by_cases c2 : sender ≠ user ∧ sender ≠ s.owner
      · left; simp [step, applyCall, evaluateCreditScore, c1, c2]
      · by_cases c3 : (s.creditEvaluations user).isEvaluated = true
        · left; simp [step, applyCall, evaluateCreditScore, c1, c2, c3]
        · right; simp [step, applyCall, evaluateCreditScore, c1, c2, c3]

/-- Claim C10: on every reachable state the totalEvaluations counter equals
the number of identities whose evaluation exists, it starts at zero, a step
either leaves it unchanged or increments it by exactly one, and it never
decreases. -/
theorem totalEvaluations_matches_evaluated_count (d : Nat)
    (s : ContractState) (op : Op) (h : Reachable d s) :
    (evaluatedSet s).Finite ∧
    (evaluatedSet s).ncard = getEvaluationStats s ∧
    getEvaluationStats (initState d) = 0 ∧
    getEvaluationStats s ≤ getEvaluationStats (step s op) ∧
    (getEvaluationStats (step s op) = getEvaluationStats s ∨
      getEvaluationStats (step s op) = getEvaluationStats s + 1) := by
  obtain ⟨hf, hc⟩ := reachable_evaluation_count d s h
  refine ⟨hf, hc, rfl, ?_, step_totalEvaluations s op⟩
  rcases step_totalEvaluations s op with h2 | h2 <;>
    simp [getEvaluationStats] at h2 ⊢ <;> omega

/-- Witness for claim C10 at the initial state. -/
theorem totalEvaluations_matches_evaluated_count_witness :
    (evaluatedSet sInit).Finite ∧
    (evaluatedSet sInit).ncard = getEvaluationStats sInit ∧
    getEvaluationStats (initState 0) = 0 ∧
    getEvaluationStats sInit ≤
      getEvaluationStats (step sInit (Op.submit 1 10 8000 5000 35 8 9)) ∧
    (getEvaluationStats (step sInit (Op.submit 1 10 8000 5000 35 8 9))
        = getEvaluationStats sInit ∨
      getEvaluationStats (step sInit (Op.submit 1 10 8000 5000 35 8 9))
        = getEvaluationStats sInit + 1) :=
  totalEvaluations_matches_evaluated_count 0 sInit
    (Op.submit 1 10 8000 5000 35 8 9) Reachable.init

/-
Client transaction pipeline (src/utils/blockchain.ts).  Asynchronous effects
are modelled by an environment recording the outcome of each external call:
the fee data and estimation results seen by GasEstimator.estimateContractCall,
and for each attempt of TransactionExecutor.executeTransaction the outcome of
sending the transaction and of waiting for its receipt.  JavaScript bigint
truthiness treats both null and zero as false.
-/

def gwei (n : Nat) : Nat := n * 1000000000

def truthy : Option Nat → Bool
  | none => false
  | some n => n ≠ 0

structure EstimationEnv where
  feeDataOk : Bool
  gasPrice : Option Nat
  maxFeePerGas : Option Nat
  maxPriorityFeePerGas : Option Nat
  estimateGasResult : Option Nat
  staticCallOk : Bool
deriving Repr, DecidableEq

inductive EstimationError where
  | contractCallWouldFail
deriving Repr, DecidableEq

/- The inner estimation logic of estimateContractCall: dynamic estimation,
then the staticCall dry run with the 300000 fallback, then the thrown
Contract call would fail error. -/
def resolveGasLimit (env : EstimationEnv) : Except EstimationError Nat :=
  match env.estimateGasResult with
  | some g => .ok g
  | none =>
    if env.staticCallOk = true then .ok 300000
    else .error .contractCallWouldFail

structure GasEstimate where
  gasLimit : Nat
  gasPrice : Nat
  maxFeePerGas : Option Nat
  maxPriorityFeePerGas : Option Nat
deriving Repr, DecidableEq

/- The safe default returned by the outer catch of estimateContractCall. -/
def defaultGasEstimate : GasEstimate :=
  { gasLimit := 400000, gasPrice := gwei 25,
    maxFeePerGas := some (gwei 25), maxPriorityFeePerGas := some (gwei 2) }

/- estimateContractCall never propagates an error: the outer catch turns any
failure, including the thrown Contract call would fail error, into
defaultGasEstimate. -/
def estimateContractCall (env : EstimationEnv) : GasEstimate :=
  if env.feeDataOk = false then defaultGasEstimate
  else
    match resolveGasLimit env with
    | .error _ => defaultGasEstimate
    | .ok g =>
      let bufferedGasLimit := g * 150 / 100
      let gasPrice1 := env.gasPrice.getD 0
      let maxFee1 := env.maxFeePerGas
      let fallback := gasPrice1 = 0 ∧ truthy maxFee1 = false
      let gasPrice2 := if fallback then gwei 20 else gasPrice1
      let maxFee2 := if fallback then some (gwei 20) else maxFee1
      let maxFee3 :=
        if truthy maxFee2 = false ∧ 0 < gasPrice2 then some gasPrice2
        else maxFee2
      { gasLimit := bufferedGasLimit,
        gasPrice := gasPrice2,
        maxFeePerGas := if truthy maxFee3 = true then maxFee3 else none,
        maxPriorityFeePerGas :=
          if truthy env.maxPriorityFeePerGas = true then
            env.maxPriorityFeePerGas
          else none }

structure TxOptions where
  gasLimit : Nat
  maxFeePerGas : Option Nat
  maxPriorityFeePerGas : Option Nat
  gasPrice : Option Nat
deriving Repr, DecidableEq

/- The transaction options prepared by executeTransaction from a gas
estimate: EIP-1559 fields when both are truthy, else the legacy gas price. -/
def txOptionsFor (est : GasEstimate) : TxOptions :=
  if truthy est.maxFeePerGas = true ∧ truthy est.maxPriorityFeePerGas = true then
    { gasLimit := est.gasLimit, maxFeePerGas := est.maxFeePerGas,
      maxPriorityFeePerGas := est.maxPriorityFeePerGas, gasPrice := none }
  else if est.gasPrice ≠ 0 then
    { gasLimit := est.gasLimit, maxFeePerGas := none,
      maxPriorityFeePerGas := none, gasPrice := some est.gasPrice }
  else
    { gasLimit := est.gasLimit, maxFeePerGas := none,
      maxPriorityFeePerGas := none, gasPrice := none }

/- A JavaScript error as classified by executeTransaction: its numeric code
when present, which classified substrings its message contains, and the raw
message text. -/
structure JsError where
  code : Option Int
  msgUserRejected : Bool
  msgCancelledByUser : Bool
  msgInsufficientFunds : Bool
  msgExecutionReverted : Bool
  msgMissingRevertData : Bool
  msgCallException : Bool
  message : String
deriving Repr, DecidableEq

def isUserCancellation (e : JsError) : Bool :=
  e.code == some 4001 || e.msgUserRejected || e.msgCancelledByUser

def userMessage (e : JsError) : String :=
  if e.code == some 4001 then "Transaction cancelled by user"
  else if e.code == some (-32603) then
    "Transaction failed - insufficient funds or contract error"
  else if e.msgInsufficientFunds then "Insufficient ETH balance for gas fees"
  else if e.msgUserRejected then "Transaction rejected by user"
  else if e.msgExecutionReverted then
    "Contract execution failed - check your data"
  else if e.msgMissingRevertData then
    "Contract call failed - please check your input data and try again"
  else if e.msgCallException then
    "Contract call exception - please verify your data is correct"
  else e.message

/- The fixed delay, in milliseconds, between retry attempts. -/
def retryDelayMs : Nat := 1000

inductive StatusKind where
  | pending
  | confirming
  | confirmed
  | failed
deriving Repr, DecidableEq

structure TxStatus where
  hash : Option Nat
  status : StatusKind
  confirmations : Nat
  gasUsed : Option Nat
  effectiveGasPrice : Option Nat
  blockNumber : Option Nat
  error : Option String
deriving Repr, DecidableEq

structure Receipt where
  status : Bool
  blockNumber : Nat
  gasUsed : Nat
  gasPrice : Nat
deriving Repr, DecidableEq

def pendingStatus0 : TxStatus :=
  ⟨none, .pending, 0, none, none, none, none⟩

def trackerPending (h : Nat) : TxStatus :=
  ⟨some h, .pending, 0, none, none, none, none⟩

def trackerFinal (h : Nat) (r : Receipt) : TxStatus :=
  ⟨some h, if r.status = true then .confirmed else .failed, 1,
   some r.gasUsed,
   if r.gasPrice ≠ 0 then some r.gasPrice else none,
   some r.blockNumber, none⟩

def trackerFailed (h : Nat) (msg : String) : TxStatus :=
  ⟨some h, .failed, 0, none, none, none, some msg⟩

def finalFailed (msg : String) : TxStatus :=
  ⟨none, .failed, 0, none, none, none, some msg⟩

def receiptNotFoundError : JsError :=
  ⟨none, false, false, false, false, false, false,
   "Transaction receipt not found"⟩

inductive WaitOutcome where
  | mined (r : Receipt)
  | nullReceipt
  | waitThrows (e : JsError)
deriving Repr, DecidableEq

inductive SendOutcome where
  | sendThrows (e : JsError)
  | sent (hash : Nat) (wait : WaitOutcome)
deriving Repr, DecidableEq

structure AttemptEnv where
  est : EstimationEnv
  send : SendOutcome
deriving Repr, DecidableEq

/- TransactionTracker.trackTransaction: emits a pending status, then either
the final confirmed or failed status built from the receipt, or a failed
status carrying the caught error message before rethrowing. -/
def trackTransaction (h : Nat) (w : WaitOutcome) :
    List TxStatus × Except JsError Receipt :=
  match w with
  | .mined r => ([trackerPending h, trackerFinal h r], .ok r)
  | .nullReceipt =>
    ([trackerPending h, trackerFailed h receiptNotFoundError.message],
     .error receiptNotFoundError)
  | .waitThrows e =>
    ([trackerPending h, trackerFailed h e.message], .error e)

/- The gas limit that executeTransaction actually passes with the
transaction, via the txOptions it prepares from the gas estimate. -/
def attemptTxOptions (a : AttemptEnv) : TxOptions :=
  txOptionsFor (estimateContractCall a.est)

/- One attempt of executeTransaction: estimate gas, emit the pending status,
send with attemptTxOptions, then track the transaction. -/
def runAttempt (a : AttemptEnv) : List TxStatus × Except JsError Receipt :=
  match a.send with
  | .sendThrows e => ([pendingStatus0], .error e)
  | .sent h w =>
    let tracked := trackTransaction h w
    (pendingStatus0 :: tracked.1, tracked.2)

/- The retry loop of executeTransaction: rem is the number of attempts still
allowed after the current one; user cancellations are never retried. -/
def execGo (envs : Nat → AttemptEnv) (i : Nat) (rem : Nat) :
    List TxStatus × Except JsError Receipt :=
  match rem with
  | 0 =>
    let att := runAttempt (envs i)
    match att.2 with
    | .ok r => (att.1, .ok r)
    | .error e => (att.1, .error e)
  | n + 1 =>
    let att := runAttempt (envs i)
    match att.2 with
    | .ok r => (att.1, .ok r)
    | .error e =>
      if isUserCancellation e = true then (att.1, .error e)
      else
        (att.1 ++ (execGo envs (i + 1) n).1, (execGo envs (i + 1) n).2)

/- TransactionExecutor.executeTransaction: run up to retries additional
attempts; on exhaustion emit a final failed status carrying the classified
message of the last error and surface that message.  The confirmations
option is accepted but never used: the tracker always waits for exactly one
confirmation. -/
def executeTransaction (envs : Nat → AttemptEnv)
    (confirmations retries : Nat) : List TxStatus × Except String Receipt :=
  match execGo envs 0 retries with
  | (ss, .ok r) => (ss, .ok r)
  | (ss, .error e) =>
    (ss ++ [finalFailed (userMessage e)], .error (userMessage e))

def statusRank : StatusKind → Nat
  | .pending => 0
  | .confirming => 1
  | .confirmed => 2
  | .failed => 2

def statusLe (x y : TxStatus) : Prop :=
  statusRank x.status ≤ statusRank y.status

/- Concrete environments for the pipeline claims. -/

def simFailEnv : EstimationEnv :=
  ⟨true, some (gwei 20), some (gwei 30), some (gwei 2), none, false⟩

def dynEnv : EstimationEnv :=
  ⟨true, some (gwei 20), some (gwei 30), some (gwei 2), some 100000, true⟩

def dryRunEnv : EstimationEnv :=
  ⟨true, some (gwei 20), some (gwei 30), some (gwei 2), none, true⟩

def feeFailEnv : EstimationEnv :=
  ⟨false, none, none, none, some 100000, true⟩

def networkError : JsError :=
  ⟨none, false, false, false, false, false, false, "network error"⟩

def failingAttempt : AttemptEnv := ⟨simFailEnv, .sendThrows networkError⟩

def rcptA : Receipt := ⟨true, 1234, 21000, gwei 3⟩

def goodAttempt : AttemptEnv := ⟨dynEnv, .sent 77 (.mined rcptA)⟩

def dryRunAttempt : AttemptEnv := ⟨dryRunEnv, .sent 77 (.mined rcptA)⟩

def feeFailAttempt : AttemptEnv := ⟨feeFailEnv, .sent 77 (.mined rcptA)⟩

/-- Claim C7: evidence of the code bug.  With dynamic estimation and the
dry-run simulation both failing definitely, the inner logic raises the
ContractCallWouldFail error, but estimateContractCall swallows it into the
default estimate, so executeTransaction still submits, retries the full two
extra attempts, and surfaces the send error of the last attempt rather than
aborting immediately on the simulation failure. -/
theorem executeTransaction_simulation_failure_swallowed :
    resolveGasLimit simFailEnv = .error .contractCallWouldFail ∧
    estimateContractCall simFailEnv = defaultGasEstimate ∧
    executeTransaction (fun _ => failingAttempt) 1 2 =
      ([pendingStatus0, pendingStatus0, pendingStatus0,
        finalFailed "network error"], .error "network error") :=
  ⟨rfl, rfl, rfl⟩

theorem txOptionsFor_gasLimit (est : GasEstimate) :
    (txOptionsFor est).gasLimit = est.gasLimit := by
  unfold txOptionsFor
  split
  · rfl
  · split <;> rfl

/-- Claim C8 counterexample: on the conservative fixed-estimate path the gas
limit submitted is the raw default 400000, not the default multiplied by the
1.5 safety factor. -/
theorem gasLimit_default_path_no_multiplier :
    (attemptTxOptions failingAttempt).gasLimit = 400000 ∧
    defaultGasEstimate.gasLimit = 400000 ∧
    defaultGasEstimate.gasLimit * 150 / 100 = 600000 ∧
    (attemptTxOptions failingAttempt).gasLimit ≠
      defaultGasEstimate.gasLimit * 150 / 100 := by
  refine ⟨rfl, rfl, rfl, ?_⟩
  decide

/-- Claim C8 amended: the 1.5 safety factor, as the integer computation
gasLimit times 150 divided by 100, is applied on the dynamic-estimation path
and on the dry-run fallback path where the base is 300000, but on the
conservative fixed path, reached when fee data retrieval fails or both
estimation and the dry run fail, the submitted gas limit is the unmultiplied
default 400000. -/
theorem gasLimit_buffer_paths (a : AttemptEnv) (g : Nat) :
    (a.est.feeDataOk = true → a.est.estimateGasResult = some g →
      (attemptTxOptions a).gasLimit = g * 150 / 100) ∧
    (a.est.feeDataOk = true → a.est.estimateGasResult = none →
     a.est.staticCallOk = true →
      (attemptTxOptions a).gasLimit = 300000 * 150 / 100) ∧
    (a.est.feeDataOk = true → a.est.estimateGasResult = none →
     a.est.staticCallOk = false →
      (attemptTxOptions a).gasLimit = 400000) ∧
    (a.est.feeDataOk = false →
      (attemptTxOptions a).gasLimit = 400000) := by
  refine ⟨?_, ?_, ?_, ?_⟩
  · intro h1 h2
    simp [attemptTxOptions, txOptionsFor_gasLimit, estimateContractCall,
      resolveGasLimit, h1, h2]
  · intro h1 h2 h3
    simp [attemptTxOptions, txOptionsFor_gasLimit, estimateContractCall,
      resolveGasLimit, h1, h2, h3]
  · intro h1 h2 h3
    simp [attemptTxOptions, txOptionsFor_gasLimit, estimateContractCall,
      resolveGasLimit, defaultGasEstimate, h1, h2, h3]
  · intro h1
    simp [attemptTxOptions, txOptionsFor_gasLimit, estimateContractCall,
      defaultGasEstimate, h1]

/-- Witness for the amended claim C8, one concrete environment per
estimation path. -/
theorem gasLimit_buffer_paths_witness :
    (attemptTxOptions goodAttempt).gasLimit = 100000 * 150 / 100 ∧
    (attemptTxOptions dryRunAttempt).gasLimit = 300000 * 150 / 100 ∧
    (attemptTxOptions failingAttempt).gasLimit = 400000 ∧
    (attemptTxOptions feeFailAttempt).gasLimit = 400000 :=
  ⟨(gasLimit_buffer_paths goodAttempt 100000).1 rfl rfl,
   (gasLimit_buffer_paths dryRunAttempt 0).2.1 rfl rfl rfl,
   (gasLimit_buffer_paths failingAttempt 0).2.2.1 rfl rfl rfl,
   (gasLimit_buffer_paths feeFailAttempt 0).2.2.2 rfl⟩

/-- Claim C9 counterexample: a successful execution with a required
confirmation count of 3 never reports any Confirming status, and its final
Confirmed report carries a confirmation count of 1, not 3. -/
theorem executeTransaction_no_confirming_counterexample :
    (executeTransaction (fun _ => goodAttempt) 3 1).1 =
      [pendingStatus0, trackerPending 77, trackerFinal 77 rcptA] ∧
    (trackerFinal 77 rcptA).status = .confirmed ∧
    (trackerFinal 77 rcptA).confirmations = 1 ∧
    ((executeTransaction (fun _ => goodAttempt) 3 1).1.all
      fun st => st.status != StatusKind.confirming) = true ∧
    (1 : Nat) ≠ 3 := by
  refine ⟨rfl, rfl, rfl, rfl, by decide⟩

theorem runAttempt_no_confirming (a : AttemptEnv) :
    ((runAttempt a).1.all fun st => st.status != StatusKind.confirming)
      = true := by
  rcases a with ⟨est, send⟩
  cases send with
  | sendThrows e => rfl
  | sent h w =>
    cases w with
    | mined r =>
      rcases r with ⟨st, bn, gu, gp⟩
      cases st <;> rfl
    | nullReceipt => rfl
    | waitThrows e => rfl

theorem runAttempt_chain (a : AttemptEnv) :
    List.Chain' statusLe (runAttempt a).1 := by
  rcases a with ⟨est, send⟩
  cases send with
  | sendThrows e => simp [runAttempt]
  | sent h w =>
    cases w with
    | mined r =>
      rcases r with ⟨st, bn, gu, gp⟩
      cases st <;>
        simp [runAttempt, trackTransaction, statusLe, statusRank,
          pendingStatus0, trackerPending, trackerFinal]
    | nullReceipt =>
      simp [runAttempt, trackTransaction, statusLe, statusRank,
        pendingStatus0, trackerPending, trackerFailed]
    | waitThrows e =>
      simp [runAttempt, trackTransaction, statusLe, statusRank,
        pendingStatus0, trackerPending, trackerFailed]

theorem runAttempt_confirmed_count (a : AttemptEnv) :
    ((runAttempt a).1.all
      fun st => st.status != StatusKind.confirmed || st.confirmations == 1)
      = true := by
  rcases a with ⟨est, send⟩
  cases send with
  | sendThrows e => rfl
  | sent h w =>
    cases w with
    | mined r =>
      rcases r with ⟨st, bn, gu, gp⟩
      cases st <;> rfl
    | nullReceipt => rfl
    | waitThrows e => rfl

theorem execGo_no_confirming (envs : Nat → AttemptEnv) (rem i : Nat) :
    ((execGo envs i rem).1.all fun st => st.status != StatusKind.confirming)
      = true := by
  induction rem generalizing i with
  | zero =>
    have h := runAttempt_no_confirming (envs i)
    simp only [execGo]
    cases h2 : (runAttempt (envs i)).2 with
    | ok r => simpa [h2] using h
    | error e => simpa [h2] using h
  | succ n ih =>
    have h := runAttempt_no_confirming (envs i)
    simp only [execGo]
    cases h2 : (runAttempt (envs i)).2 with
    | ok r => simpa [h2] using h
    | error e =>
      by_cases hc : isUserCancellation e = true
      · simpa [h2, hc] using h
      · simp [h2, hc, List.all_append, h, ih (i + 1)]

/-- Claim C9 amended: the pipeline never reports a Confirming status in any
run; within one attempt the reported statuses advance monotonically from
Pending to a terminal status, restarting at Pending on a retry; and any
Confirmed report carries a confirmation count of exactly 1 regardless of the
configured confirmation requirement. -/
theorem executeTransaction_status_progression (envs : Nat → AttemptEnv)
    (confirmations retries : Nat) (a : AttemptEnv) :
    ((executeTransaction envs confirmations retries).1.all
      fun st => st.status != StatusKind.confirming) = true ∧
    List.Chain' statusLe (runAttempt a).1 ∧
    ((runAttempt a).1.all
      fun st => st.status != StatusKind.confirmed || st.confirmations == 1)
      = true := by
  refine ⟨?_, runAttempt_chain a, runAttempt_confirmed_count a⟩
  have h := execGo_no_confirming envs retries 0
  unfold executeTransaction
  rcases h3 : execGo envs 0 retries with ⟨ss, res⟩
  rw [h3] at h
  cases res with
  | ok r => simpa using h
  | error e =>
    simp only [List.all_append]
    simp only at h
    simp [h, finalFailed]
